import Mathlib

/-!
Shallow embedding of `MavSDK Scripts/mavsdk_datafetch.py`: a telemetry
aggregation script with a shared mutable record (`telemetry_data`), a bounded
error list (`error_list`, capacity 5 via `add_error`), eight stream-fetcher
loops, a display loop, a CSV persistence loop (`log_to_csv`), and a
connection supervisor (`run`).

Python dictionaries are modelled as association lists or Lean structures,
Python string operations (`str.replace`, `str.lower`) as executable functions
on `List Char`, and each `async` loop as a pure function over an explicit
trace of the failures its `except` clause observes.  Cooperative `asyncio`
scheduling makes every run of straight-line statements atomic with respect to
the other tasks, so stateful code is embedded as sequential state passing.
-/

/-- `MAX_ERRORS_DISPLAYED = 5`. -/
def maxErrorsDisplayed : Nat := 5

/-- An `add_error` call formats its entry as `f"[{timestamp}] {error_msg}"`. -/
def fmtEntry (ts msg : String) : String := "[" ++ ts ++ "] " ++ msg

/-- `add_error(error_msg)`: append the timestamped entry, then
`if len(error_list) > MAX_ERRORS_DISPLAYED: error_list.pop(0)`. -/
def add_error (ts msg : String) (log : List String) : List String :=
  let l := log ++ [fmtEntry ts msg]
  if l.length > maxErrorsDisplayed then l.drop 1 else l

/-- The error log produced by a sequence of `add_error` calls
(each event is a `(timestamp, message)` pair), starting from `error_list = []`. -/
def errLogAfter (events : List (String × String)) : List String :=
  events.foldl (fun acc e => add_error e.1 e.2 acc) []

/-- The display loop shows `error_list[-MAX_ERRORS_DISPLAYED:]`:
the most recent entries, most-recent-last. -/
def recentErrors (log : List String) : List String :=
  log.drop (log.length - maxErrorsDisplayed)

theorem add_error_eq (ts msg : String) (log : List String) (h : log.length ≤ 5) :
    add_error ts msg log =
      (log ++ [fmtEntry ts msg]).drop ((log.length + 1) - 5) := by
  unfold add_error maxErrorsDisplayed
  by_cases h5 : log.length = 5
  · simp [h5]
  · have h4 : log.length ≤ 4 := by omega
    have : ¬ (log ++ [fmtEntry ts msg]).length > 5 := by
      simp [List.length_append]; omega
    simp only [if_neg this]
    have : (log.length + 1) - 5 = 0 := by omega
    simp [this]

theorem add_error_length (ts msg : String) (log : List String) (h : log.length ≤ 5) :
    (add_error ts msg log).length ≤ 5 := by
  rw [add_error_eq ts msg log h]
  simp [List.length_append]
  omega

/-- Generalized fold lemma: starting from any log of length at most 5, the log
after a sequence of `add_error` calls is the suffix of all entries ever
appended that keeps only the most recent five. -/
theorem errLog_foldl (events : List (String × String)) :
    ∀ log : List String, log.length ≤ 5 →
      events.foldl (fun acc e => add_error e.1 e.2 acc) log =
        (log ++ events.map (fun e => fmtEntry e.1 e.2)).drop
          ((log.length + events.length) - 5) := by
  induction events with
  | nil =>
    intro log h
    simp only [List.foldl_nil, List.map_nil, List.append_nil, List.length_nil,
      Nat.add_zero]
    have h0 : log.length - 5 = 0 := by omega
    rw [h0, List.drop_zero]
  | cons e rest ih =>
    intro log h
    simp only [List.foldl_cons, List.map_cons, List.length_cons]
    rw [ih (add_error e.1 e.2 log) (add_error_length e.1 e.2 log h)]
    rw [add_error_eq e.1 e.2 log h]
    have h1 : log.length + 1 - 5 ≤ (log ++ [fmtEntry e.1 e.2]).length := by
      simp; omega
    rw [← List.drop_append_of_le_length h1]
    rw [List.drop_drop]
    have hX : (log ++ [fmtEntry e.1 e.2]) ++ List.map (fun e => fmtEntry e.1 e.2) rest
        = log ++ fmtEntry e.1 e.2 :: List.map (fun e => fmtEntry e.1 e.2) rest := by
      simp
    rw [hX]
    congr 1
    simp only [List.length_drop, List.length_append, List.length_singleton]
    omega

theorem errLogAfter_eq (events : List (String × String)) :
    errLogAfter events =
      (events.map (fun e => fmtEntry e.1 e.2)).drop (events.length - 5) := by
  unfold errLogAfter
  rw [errLog_foldl events [] (by simp)]
  simp

/-- The seven boolean flags of a MAVSDK health update, in the order the
source reads them inside `fetch_health`. -/
structure HealthFlags where
  is_accelerometer_calibration_ok : Bool
  is_gyrometer_calibration_ok : Bool
  is_magnetometer_calibration_ok : Bool
  is_global_position_ok : Bool
  is_home_position_ok : Bool
  is_local_position_ok : Bool
  is_armable : Bool
deriving DecidableEq, Repr

/-- The dictionary literal `fetch_health` assigns to `telemetry_data["health"]`:
seven named entries, each `"OK"` when the flag is true and `"FAIL"` otherwise,
in the source's insertion order. -/
def healthFromFlags (h : HealthFlags) : List (String × String) :=
  [("Accelerometer calibration",
      if h.is_accelerometer_calibration_ok then "OK" else "FAIL"),
   ("Gyrometer calibration",
      if h.is_gyrometer_calibration_ok then "OK" else "FAIL"),
   ("Magnetometer calibration",
      if h.is_magnetometer_calibration_ok then "OK" else "FAIL"),
   ("Global position", if h.is_global_position_ok then "OK" else "FAIL"),
   ("Home position", if h.is_home_position_ok then "OK" else "FAIL"),
   ("Local position", if h.is_local_position_ok then "OK" else "FAIL"),
   ("Armable", if h.is_armable then "OK" else "FAIL")]

/-- The `telemetry_data` dictionary: fifteen scalar fields plus the nested
`health` dictionary (modelled as an association list in insertion order). -/
structure TelemetryData where
  lat : String
  lon : String
  alt : String
  abs_alt : String
  speed : String
  roll : String
  pitch : String
  yaw : String
  voltage : String
  battery : String
  gps_fix : String
  satellites : String
  flight_mode : String
  armed : String
  rc_signal : String
  health : List (String × String)
deriving DecidableEq, Repr

/-- The initial value of `telemetry_data`: every scalar field and every health
entry holds the `"N/A"` unavailable marker. -/
def telemetryDataInit : TelemetryData :=
  { lat := "N/A", lon := "N/A", alt := "N/A", abs_alt := "N/A", speed := "N/A"
    roll := "N/A", pitch := "N/A", yaw := "N/A", voltage := "N/A"
    battery := "N/A", gps_fix := "N/A", satellites := "N/A"
    flight_mode := "N/A", armed := "N/A", rc_signal := "N/A"
    health := [("Accelerometer calibration", "N/A"), ("Armable", "N/A"),
               ("Global position", "N/A"), ("Gyrometer calibration", "N/A"),
               ("Home position", "N/A"), ("Local position", "N/A"),
               ("Magnetometer calibration", "N/A")] }

/-- The scalar keys of `telemetry_data` that fetchers assign individually. -/
inductive StoreField where
  | lat | lon | alt | abs_alt | speed | roll | pitch | yaw
  | voltage | battery | gps_fix | satellites | flight_mode | armed | rc_signal
deriving DecidableEq, Repr

/-- A single dictionary assignment `telemetry_data[f] = v`.  Under the
cooperative `asyncio` scheduler one assignment runs to completion before any
other task resumes, so it is embedded as an atomic update of the record. -/
def setField (d : TelemetryData) (f : StoreField) (v : String) : TelemetryData :=
  match f with
  | .lat => { d with lat := v }
  | .lon => { d with lon := v }
  | .alt => { d with alt := v }
  | .abs_alt => { d with abs_alt := v }
  | .speed => { d with speed := v }
  | .roll => { d with roll := v }
  | .pitch => { d with pitch := v }
  | .yaw => { d with yaw := v }
  | .voltage => { d with voltage := v }
  | .battery => { d with battery := v }
  | .gps_fix => { d with gps_fix := v }
  | .satellites => { d with satellites := v }
  | .flight_mode => { d with flight_mode := v }
  | .armed => { d with armed := v }
  | .rc_signal => { d with rc_signal := v }

/-- Reading `telemetry_data[f]`, as a snapshot copy does. -/
def getField (d : TelemetryData) (f : StoreField) : String :=
  match f with
  | .lat => d.lat
  | .lon => d.lon
  | .alt => d.alt
  | .abs_alt => d.abs_alt
  | .speed => d.speed
  | .roll => d.roll
  | .pitch => d.pitch
  | .yaw => d.yaw
  | .voltage => d.voltage
  | .battery => d.battery
  | .gps_fix => d.gps_fix
  | .satellites => d.satellites
  | .flight_mode => d.flight_mode
  | .armed => d.armed
  | .rc_signal => d.rc_signal

/-- The interleaved sequence of single-field writes delivered to the Store,
applied in order.  Fetchers suspend only between statements, so the global
history of writes is one such sequence. -/
def applyWrites (d : TelemetryData) (ws : List (StoreField × String)) : TelemetryData :=
  ws.foldl (fun acc w => setField acc w.1 w.2) d

/-- The value of the most recent write to field `f` in the sequence, if any. -/
def lastValue (f : StoreField) : List (StoreField × String) → Option String
  | [] => none
  | w :: ws =>
    match lastValue f ws with
    | some v => some v
    | none => if w.1 = f then some w.2 else none

/-- `fetch_health` assigning `telemetry_data["health"]` a freshly built
dictionary: the whole checklist is replaced as one unit. -/
def updateHealth (d : TelemetryData) (h : HealthFlags) : TelemetryData :=
  { d with health := healthFromFlags h }

theorem getField_setField (d : TelemetryData) (f g : StoreField) (v : String) :
    getField (setField d g v) f = if f = g then v else getField d f := by
  cases f <;> cases g <;> simp [getField, setField]

theorem applyWrites_lastValue (ws : List (StoreField × String)) :
    ∀ d : TelemetryData, ∀ f : StoreField,
      getField (applyWrites d ws) f = (lastValue f ws).getD (getField d f) := by
  induction ws with
  | nil => intro d f; simp [applyWrites, lastValue]
  | cons w rest ih =>
    intro d f
    simp only [applyWrites, List.foldl_cons, lastValue]
    have := ih (setField d w.1 w.2) f
    simp only [applyWrites] at this
    rw [this, getField_setField]
    cases hlv : lastValue f rest with
    | some v => simp
    | none =>
      simp only [Option.getD_none]
      by_cases hw : w.1 = f
      · subst hw; simp
      · have : ¬ f = w.1 := fun hh => hw hh.symm
        simp [this, hw]

/-- State of one stream-fetcher loop: how many times the `try` body has begun a
subscription, the full history of `add_error` calls it made, the resulting
shared `error_list`, and the `asyncio.sleep` delays performed (time units). -/
structure FetcherState where
  attempts : Nat
  recorded : List String
  errLog : List String
  delays : List Nat
deriving DecidableEq, Repr

def fetcherInit : FetcherState :=
  { attempts := 0, recorded := [], errLog := [], delays := [] }

/-- One fetcher's `while True: try: async for ... except Exception as e:
add_error(tag + str(e)); await asyncio.sleep(1)` loop, run over the trace of
consecutive subscription failures it observes (each a `(timestamp, message)`
pair).  After the last failure the loop re-enters the `try` and subscribes
again, which is the final increment of `attempts`. -/
def fetcherLoop (tag : String) : List (String × String) → FetcherState → FetcherState
  | [], st => { st with attempts := st.attempts + 1 }
  | (ts, msg) :: rest, st =>
    fetcherLoop tag rest
      { attempts := st.attempts + 1
        recorded := st.recorded ++ [fmtEntry ts (tag ++ msg)]
        errLog := add_error ts (tag ++ msg) st.errLog
        delays := st.delays ++ [1] }

/-- State of the `run()` supervisor: connection attempts begun, its
`add_error` history, the shared `error_list`, the `asyncio.sleep(5)` delays
performed, and the number of tasks launched by `asyncio.create_task` once an
attempt gets past the connection phase (8 fetchers + 2 consumers = 10). -/
structure SupState where
  attempts : Nat
  recorded : List String
  errLog : List String
  delays : List Nat
  tasksLaunched : Nat
deriving DecidableEq, Repr

def supInit : SupState :=
  { attempts := 0, recorded := [], errLog := [], delays := [], tasksLaunched := 0 }

/-- `run()`: try to connect and launch all tasks; on any exception record
`"Main connection error: " + str(e)`, sleep 5, and recurse into `run()` again.
Run over the trace of consecutive connection-phase failures; the attempt after
the last failure reaches `asyncio.gather` with all 10 tasks launched. -/
def supervisorRun : List (String × String) → SupState → SupState
  | [], st => { st with attempts := st.attempts + 1, tasksLaunched := 10 }
  | (ts, msg) :: rest, st =>
    supervisorRun rest
      { attempts := st.attempts + 1
        recorded := st.recorded ++ [fmtEntry ts ("Main connection error: " ++ msg)]
        errLog := add_error ts ("Main connection error: " ++ msg) st.errLog
        delays := st.delays ++ [5]
        tasksLaunched := st.tasksLaunched }

/-- The CSV log file name, computed once at module import time from the script
start time: `os.path.join("flight_logs", f"telemetry_log_{log_start_time}.csv")`.
It is a module-level constant, never recomputed inside `run()`. -/
def logFilename (log_start_time : String) : String :=
  "flight_logs/telemetry_log_" ++ log_start_time ++ ".csv"

theorem fetcherLoop_spec (tag : String) (failures : List (String × String)) :
    ∀ st : FetcherState,
      fetcherLoop tag failures st =
        { attempts := st.attempts + failures.length + 1
          recorded := st.recorded ++
            failures.map (fun e => fmtEntry e.1 (tag ++ e.2))
          errLog := failures.foldl
            (fun acc e => add_error e.1 (tag ++ e.2) acc) st.errLog
          delays := st.delays ++ List.replicate failures.length 1 } := by
  induction failures with
  | nil => intro st; simp [fetcherLoop]
  | cons e rest ih =>
    intro st
    obtain ⟨ts, msg⟩ := e
    simp only [fetcherLoop, List.length_cons, List.map_cons, List.foldl_cons,
      List.replicate_succ]
    rw [ih]
    simp only [List.append_assoc, List.singleton_append]
    congr 1
    omega

theorem supervisorRun_spec (failures : List (String × String)) :
    ∀ st : SupState,
      supervisorRun failures st =
        { attempts := st.attempts + failures.length + 1
          recorded := st.recorded ++ failures.map
            (fun e => fmtEntry e.1 ("Main connection error: " ++ e.2))
          errLog := failures.foldl
            (fun acc e => add_error e.1 ("Main connection error: " ++ e.2) acc)
            st.errLog
          delays := st.delays ++ List.replicate failures.length 5
          tasksLaunched := 10 } := by
  induction failures with
  | nil => intro st; simp [supervisorRun]
  | cons e rest ih =>
    intro st
    obtain ⟨ts, msg⟩ := e
    simp only [supervisorRun, List.length_cons, List.map_cons, List.foldl_cons,
      List.replicate_succ]
    rw [ih]
    simp only [List.append_assoc, List.singleton_append]
    congr 1
    omega

/-- Fuel-indexed model of Python `str.replace(pat, repl)` on character lists:
scan left to right, replacing each non-overlapping occurrence of `pat`.
The fuel bounds the scan; `s.length` fuel suffices for any non-empty `pat`
(the source only ever replaces non-empty patterns). -/
def pyReplaceFuel (pat repl : List Char) : Nat → List Char → List Char
  | 0, s => s
  | _ + 1, [] => []
  | fuel + 1, c :: rest =>
    if pat.isPrefixOf (c :: rest) then
      repl ++ pyReplaceFuel pat repl fuel ((c :: rest).drop pat.length)
    else
      c :: pyReplaceFuel pat repl fuel rest

/-- Python `s.replace(pat, repl)` for the non-empty patterns the source uses. -/
def pyReplace (pat repl s : String) : String :=
  ⟨pyReplaceFuel pat.data repl.data s.data.length s.data⟩

/-- Python `s.lower()` (the source applies it to ASCII health-check names). -/
def pyLower (s : String) : String := ⟨s.data.map Char.toLower⟩

/-- Whether `pat` occurs as a contiguous subsequence of `s`. -/
def containsPat (pat : List Char) : List Char → Bool
  | [] => pat.isEmpty
  | c :: rest => pat.isPrefixOf (c :: rest) || containsPat pat rest

/-- `fetch_gps` stores `str(gps.fix_type).replace("FIX_TYPE_", "")`. -/
def gpsFixStored (label : String) : String := pyReplace "FIX_TYPE_" "" label

/-- `fetch_flight_mode` stores `str(mode).replace("FLIGHT_MODE_", "")`. -/
def flightModeStored (label : String) : String :=
  pyReplace "FLIGHT_MODE_" "" label

theorem pyReplaceFuel_no_occurrence (pat : List Char) :
    ∀ (s : List Char) (fuel : Nat), s.length ≤ fuel →
      containsPat pat s = false → pyReplaceFuel pat [] fuel s = s := by
  intro s
  induction s with
  | nil => intro fuel _ _; cases fuel <;> rfl
  | cons c rest ih =>
    intro fuel hf hc
    match fuel with
    | f + 1 =>
      simp only [containsPat, Bool.or_eq_false_iff] at hc
      have hlen : rest.length ≤ f := by simpa using hf
      simp [pyReplaceFuel, hc.1, ih f hlen hc.2]

theorem pyReplaceFuel_strip_head (p : Char) (ps rest : List Char) (fuel : Nat)
    (hf : rest.length ≤ fuel) (hc : containsPat (p :: ps) rest = false) :
    pyReplaceFuel (p :: ps) [] (fuel + 1) ((p :: ps) ++ rest) = rest := by
  have hpre : (p :: ps).isPrefixOf (p :: (ps ++ rest)) = true := by
    simp [List.isPrefixOf_iff_prefix, List.prefix_append]
  rw [show ((p :: ps) ++ rest) = p :: (ps ++ rest) from rfl]
  simp only [pyReplaceFuel, hpre, if_true, List.nil_append]
  have hdrop : (p :: (ps ++ rest)).drop (p :: ps).length = rest := by
    rw [show (p :: (ps ++ rest)) = (p :: ps) ++ rest from rfl]
    exact List.drop_left (p :: ps) rest
  rw [hdrop]
  exact pyReplaceFuel_no_occurrence (p :: ps) rest fuel hf hc

/-- The fixed `header` list of `log_to_csv`. -/
def headerCols : List String :=
  ["timestamp", "lat", "lon", "alt", "abs_alt", "speed", "roll", "pitch",
   "yaw", "voltage", "battery", "gps_fix", "satellites", "flight_mode",
   "armed", "rc_signal", "health_accelerometer_calibration", "health_armable",
   "health_global_position", "health_gyrometer_calibration",
   "health_home_position", "health_local_position",
   "health_magnetometer_calibration"]

/-- `log_to_csv` flattens a health key as
`f'health_\x7bkey.lower().replace(" ", "_")\x7d'`. -/
def healthColKey (k : String) : String :=
  "health_" ++ pyReplace " " "_" (pyLower k)

/-- The loop `for k, v in flat_data.items(): if v == "N/A": flat_data[k] = 0`
(the CSV writer renders the number 0 as the literal string `0`). -/
def naSubst (v : String) : String := if v = "N/A" then "0" else v

/-- `flat_data` as built by one `log_to_csv` iteration from a snapshot of
`telemetry_data` and the row timestamp: the fifteen scalar entries in
dictionary order, then `timestamp`, then the flattened health entries, with
the `"N/A"`-to-`0` replacement applied to every value. -/
def flatData (d : TelemetryData) (ts : String) : List (String × String) :=
  ([("lat", d.lat), ("lon", d.lon), ("alt", d.alt), ("abs_alt", d.abs_alt),
    ("speed", d.speed), ("roll", d.roll), ("pitch", d.pitch), ("yaw", d.yaw),
    ("voltage", d.voltage), ("battery", d.battery), ("gps_fix", d.gps_fix),
    ("satellites", d.satellites), ("flight_mode", d.flight_mode),
    ("armed", d.armed), ("rc_signal", d.rc_signal), ("timestamp", ts)]
    ++ d.health.map (fun p => (healthColKey p.1, p.2))).map
      (fun p => (p.1, naSubst p.2))

/-- `flat_data.get(k, 0)`: first binding of `k`, defaulting to `0`
(keys are unique, so first binding is the binding). -/
def dictGet (m : List (String × String)) (k : String) : String :=
  ((m.find? (fun p => p.1 = k)).map (fun p => p.2)).getD "0"

/-- The row `log_to_csv` writes:
`\x7bk: flat_data.get(k, 0) if flat_data.get(k, 0) != "N/A" else 0 for k in header\x7d`,
emitted by `DictWriter` in header-column order. -/
def rowFor (d : TelemetryData) (ts : String) : List String :=
  headerCols.map (fun k => naSubst (dictGet (flatData d ts) k))

/-- One `log_to_csv` iteration acts on `flat_data = telemetry_data.copy()`
only; the shared record itself is returned untouched alongside the row. -/
def csvTick (d : TelemetryData) (ts : String) : TelemetryData × List String :=
  (d, rowFor d ts)

/-- A line of the CSV file: the header row or a data row. -/
inductive CsvLine where
  | headerLine : CsvLine
  | dataLine : List String → CsvLine
deriving DecidableEq, Repr

/-- The on-disk log file as the persistence loop observes it: whether
`open(filename, "r")` would succeed, and the lines present. -/
structure LogFile where
  present : Bool
  lines : List CsvLine
deriving DecidableEq, Repr

/-- The state of the log file after it has been deleted (or before it is
first created): absent, no lines. -/
def deletedFile : LogFile := { present := false, lines := [] }

/-- The file-writing part of one `log_to_csv` iteration: probe existence with
`open(filename, "r")`, then `open(filename, "a")` (which creates the file if
absent), write the header iff the probe failed, then write the data row. -/
def csvWriteTick (f : LogFile) (row : List String) : LogFile :=
  let file_exists := f.present
  { present := true
    lines := f.lines ++
      (if file_exists then [CsvLine.dataLine row]
       else [CsvLine.headerLine, CsvLine.dataLine row]) }

def isHeaderLine : CsvLine → Bool
  | .headerLine => true
  | .dataLine _ => false

/-- Number of header rows in the file. -/
def headerCount (f : LogFile) : Nat := f.lines.countP isHeaderLine

/-- The file after a sequence of persistence ticks, one row per tick. -/
def runTicks (f : LogFile) (rows : List (List String)) : LogFile :=
  rows.foldl csvWriteTick f

/-- Folding `add_error` with a fixed tag prefixed to each message keeps only
the five most recent tagged entries. -/
theorem errLog_foldl_tagged (tag : String) (failures : List (String × String)) :
    failures.foldl (fun acc e => add_error e.1 (tag ++ e.2) acc) [] =
      (failures.map (fun e => fmtEntry e.1 (tag ++ e.2))).drop
        (failures.length - 5) := by
  have h := errLogAfter_eq (failures.map (fun e => (e.1, tag ++ e.2)))
  unfold errLogAfter at h
  rw [List.foldl_map] at h
  simpa [List.map_map, Function.comp] using h

/-- C1: a stream fetcher catches every subscription failure inside its own
loop: a trace of N consecutive failures produces exactly N + 1 subscription
attempts, one recorded Error Log entry per failure tagged with the fetcher's
category (its message prefix), and one 1-time-unit delay after each failure,
after which the fetcher re-subscribes.  The loop function is total over every
failure trace, so no failure escapes to the supervisor or any other task. -/
theorem fetcher_isolation_retry (tag : String)
    (failures : List (String × String)) :
    (fetcherLoop tag failures fetcherInit).attempts = failures.length + 1 ∧
    (fetcherLoop tag failures fetcherInit).recorded =
      failures.map (fun e => fmtEntry e.1 (tag ++ e.2)) ∧
    (fetcherLoop tag failures fetcherInit).delays =
      List.replicate failures.length 1 := by
  rw [fetcherLoop_spec]
  simp [fetcherInit]

/-- C2: a snapshot of the Store after any interleaved sequence of single-field
writes holds, for each field, exactly the value of the most recent write to
that field (or the field's prior value when the sequence never wrote it):
no field is older than its latest completed write and no write is ever
half-applied. -/
theorem snapshot_last_write_wins (d : TelemetryData)
    (ws : List (StoreField × String)) (f : StoreField) :
    getField (applyWrites d ws) f = (lastValue f ws).getD (getField d f) :=
  applyWrites_lastValue ws d f

/-- C3: the Error Log never exceeds its capacity of 5, and once more than 5
entries have been inserted the 5 most recent entries read back are exactly the
5 most recently inserted messages in insertion order, most-recent-last. -/
theorem errorlog_capacity_recent (events : List (String × String)) :
    (errLogAfter events).length ≤ 5 ∧
    (events.length > 5 →
      recentErrors (errLogAfter events) =
        (events.map (fun e => fmtEntry e.1 e.2)).drop (events.length - 5)) := by
  constructor
  · rw [errLogAfter_eq]
    simp only [List.length_drop, List.length_map]
    omega
  · intro h
    rw [errLogAfter_eq]
    unfold recentErrors maxErrorsDisplayed
    have hlen : ((events.map (fun e => fmtEntry e.1 e.2)).drop
        (events.length - 5)).length = 5 := by
      simp only [List.length_drop, List.length_map]
      omega
    rw [hlen]
    simp

/-- C3 witness: six insertions exceed the capacity, and reading back returns
the last five in order. -/
theorem errorlog_capacity_recent_witness :
    ([("t1", "e1"), ("t2", "e2"), ("t3", "e3"), ("t4", "e4"), ("t5", "e5"),
      ("t6", "e6")] : List (String × String)).length > 5 ∧
    recentErrors (errLogAfter
      [("t1", "e1"), ("t2", "e2"), ("t3", "e3"), ("t4", "e4"), ("t5", "e5"),
       ("t6", "e6")]) =
      (([("t1", "e1"), ("t2", "e2"), ("t3", "e3"), ("t4", "e4"), ("t5", "e5"),
        ("t6", "e6")] : List (String × String)).map
          (fun e => fmtEntry e.1 e.2)).drop
        (([("t1", "e1"), ("t2", "e2"), ("t3", "e3"), ("t4", "e4"), ("t5", "e5"),
          ("t6", "e6")] : List (String × String)).length - 5) :=
  ⟨by decide,
   (errorlog_capacity_recent
     [("t1", "e1"), ("t2", "e2"), ("t3", "e3"), ("t4", "e4"), ("t5", "e5"),
      ("t6", "e6")]).2 (by decide)⟩

/-- C4: a health update replaces the whole 7-entry checklist as one unit,
mapping each boolean flag to OK/FAIL: the scenario `armable = true,
global_position = false, others = true` on a fresh Store yields
`Armable = OK`, `Global position = FAIL` and all five other checks OK; the
resulting checklist depends only on the new flags (nothing is retained from
any prior checklist); and it always carries exactly the seven named checks. -/
theorem health_atomic_replace :
    (updateHealth telemetryDataInit
        ⟨true, true, true, false, true, true, true⟩).health =
      [("Accelerometer calibration", "OK"), ("Gyrometer calibration", "OK"),
       ("Magnetometer calibration", "OK"), ("Global position", "FAIL"),
       ("Home position", "OK"), ("Local position", "OK"), ("Armable", "OK")] ∧
    (∀ d d' : TelemetryData, ∀ h : HealthFlags,
      (updateHealth d h).health = (updateHealth d' h).health) ∧
    (∀ d : TelemetryData, ∀ h : HealthFlags,
      ((updateHealth d h).health).map (fun p => p.1) =
        ["Accelerometer calibration", "Gyrometer calibration",
         "Magnetometer calibration", "Global position", "Home position",
         "Local position", "Armable"]) :=
  ⟨by decide, fun d d' h => rfl, fun d h => rfl⟩

/-- C6: the supervisor records exactly one Error Log entry per
connection-phase failure, sleeps a fixed 5 time units after each (no backoff
growth), retries without bound, and the attempt after N consecutive failures
(the (N+1)-st) launches all 10 tasks (8 fetchers and 2 consumers); for N = 3
this is 3 entries, 3 fixed delays, and a successful 4th attempt. -/
theorem supervisor_retry_protocol (failures : List (String × String)) :
    (supervisorRun failures supInit).attempts = failures.length + 1 ∧
    (supervisorRun failures supInit).recorded =
      failures.map (fun e => fmtEntry e.1 ("Main connection error: " ++ e.2)) ∧
    (supervisorRun failures supInit).delays =
      List.replicate failures.length 5 ∧
    (supervisorRun failures supInit).tasksLaunched = 10 := by
  rw [supervisorRun_spec]
  simp [supInit]

/-- C7 counterexample: after one connection failure the supervisor restarts
and launches the session's tasks, yet the Error Log it hands to that fresh
session still holds the previous session's entry — the session context is
not recreated empty. -/
theorem session_restart_not_fresh :
    (supervisorRun [("12:00:00", "serial open failed")] supInit).tasksLaunched
      = 10 ∧
    (supervisorRun [("12:00:00", "serial open failed")] supInit).errLog ≠ [] :=
  ⟨by decide, by decide⟩

/-- C7 amended: the Store and Error Log are process-lifetime globals that
survive a session restart: the session that finally launches its tasks starts
with the Error Log still holding the most recent (up to five) entries recorded
by the failed sessions before it, rather than a freshly emptied log; likewise
the tabular log file name is fixed once from the process start time
(`logFilename`) and is shared by every session of the process. -/
theorem session_restart_carries_state (failures : List (String × String)) :
    (supervisorRun failures supInit).errLog =
      (failures.map
        (fun e => fmtEntry e.1 ("Main connection error: " ++ e.2))).drop
        (failures.length - 5) ∧
    (supervisorRun failures supInit).tasksLaunched = 10 ∧
    (∀ log_start_time : String,
      logFilename log_start_time =
        "flight_logs/telemetry_log_" ++ log_start_time ++ ".csv") := by
  rw [supervisorRun_spec]
  refine ⟨?_, rfl, fun _ => rfl⟩
  simp only [supInit]
  exact errLog_foldl_tagged "Main connection error: " failures

theorem gpsFixStored_strip (rest : String)
    (hc : containsPat "FIX_TYPE_".data rest.data = false) :
    gpsFixStored ("FIX_TYPE_" ++ rest) = rest := by
  unfold gpsFixStored pyReplace
  rw [String.data_append]
  rw [show ("" : String).data = [] from rfl]
  have hfix : "FIX_TYPE_".data = 'F' :: "IX_TYPE_".data := rfl
  have hlen : ("FIX_TYPE_".data ++ rest.data).length =
      (8 + rest.data.length) + 1 := by
    simp [List.length_append]
    omega
  rw [hlen, hfix]
  rw [pyReplaceFuel_strip_head 'F' "IX_TYPE_".data rest.data
    (8 + rest.data.length) (by omega) (by rw [← hfix]; exact hc)]

theorem flightModeStored_strip (rest : String)
    (hc : containsPat "FLIGHT_MODE_".data rest.data = false) :
    flightModeStored ("FLIGHT_MODE_" ++ rest) = rest := by
  unfold flightModeStored pyReplace
  rw [String.data_append]
  rw [show ("" : String).data = [] from rfl]
  have hfix : "FLIGHT_MODE_".data = 'F' :: "LIGHT_MODE_".data := rfl
  have hlen : ("FLIGHT_MODE_".data ++ rest.data).length =
      (11 + rest.data.length) + 1 := by
    simp [List.length_append]
    omega
  rw [hlen, hfix]
  rw [pyReplaceFuel_strip_head 'F' "LIGHT_MODE_".data rest.data
    (11 + rest.data.length) (by omega) (by rw [← hfix]; exact hc)]

/-- C8: for every enumerated GPS fix-type or flight-mode label that carries
its categorical prefix (and does not repeat it in the remainder, as no
enumeration label does), the value stored in the Store is the bare label with
that prefix stripped: `str(...).replace` removes the leading occurrence. -/
theorem enum_label_stripped :
    (∀ rest : String, containsPat "FIX_TYPE_".data rest.data = false →
      gpsFixStored ("FIX_TYPE_" ++ rest) = rest) ∧
    (∀ rest : String, containsPat "FLIGHT_MODE_".data rest.data = false →
      flightModeStored ("FLIGHT_MODE_" ++ rest) = rest) :=
  ⟨gpsFixStored_strip, flightModeStored_strip⟩

/-- C8 witness: the fix-type label `FIX_TYPE_3D` is stored as `3D` and the
flight-mode label `FLIGHT_MODE_HOLD` is stored as `HOLD`. -/
theorem enum_label_stripped_witness :
    containsPat "FIX_TYPE_".data "3D".data = false ∧
    gpsFixStored ("FIX_TYPE_" ++ "3D") = "3D" ∧
    containsPat "FLIGHT_MODE_".data "HOLD".data = false ∧
    flightModeStored ("FLIGHT_MODE_" ++ "HOLD") = "HOLD" :=
  ⟨by decide, enum_label_stripped.1 "3D" (by decide),
   by decide, enum_label_stripped.2 "HOLD" (by decide)⟩

theorem runTicks_existing (rows : List (List String)) :
    ∀ f : LogFile, f.present = true →
      runTicks f rows =
        { present := true, lines := f.lines ++ rows.map CsvLine.dataLine } := by
  induction rows with
  | nil =>
    intro f hp
    obtain ⟨p, l⟩ := f
    simp only at hp
    simp [runTicks, hp]
  | cons r rest ih =>
    intro f hp
    simp only [runTicks, List.foldl_cons]
    have hstep := ih (csvWriteTick f r) (by simp [csvWriteTick])
    simp only [runTicks] at hstep
    rw [hstep]
    simp [csvWriteTick, hp]

/-- C9: if the persistence loop runs against a log file that already exists
with its single header row present, no tick ever writes a second header: the
file keeps exactly one header row and every write appends data rows only. -/
theorem header_idempotent (f : LogFile) (rows : List (List String))
    (hp : f.present = true) (hh : headerCount f = 1) :
    headerCount (runTicks f rows) = 1 ∧
    (runTicks f rows).lines = f.lines ++ rows.map CsvLine.dataLine := by
  rw [runTicks_existing rows f hp]
  refine ⟨?_, rfl⟩
  simp only [headerCount] at hh ⊢
  simp [List.countP_append, hh, List.countP_map]
  intro a _
  rfl

/-- C9 witness: a file that exists with one header, two ticks later, still
has exactly one header and gained only the two data rows. -/
theorem header_idempotent_witness :
    ({ present := true, lines := [CsvLine.headerLine] } : LogFile).present
      = true ∧
    headerCount { present := true, lines := [CsvLine.headerLine] } = 1 ∧
    (headerCount (runTicks { present := true, lines := [CsvLine.headerLine] }
        [["1"], ["2"]]) = 1 ∧
      (runTicks { present := true, lines := [CsvLine.headerLine] }
        [["1"], ["2"]]).lines =
        [CsvLine.headerLine] ++
          ([["1"], ["2"]] : List (List String)).map CsvLine.dataLine) :=
  ⟨rfl, by decide,
   header_idempotent { present := true, lines := [CsvLine.headerLine] }
     [["1"], ["2"]] rfl (by decide)⟩

/-- C10: every persistence tick re-probes the file's existence just before
appending: a tick adds a header row exactly when the file is absent at that
moment, and a tick running right after the file was deleted recreates it with
a fresh header followed by the tick's data row. -/
theorem header_reprobed_each_tick (f : LogFile) (row : List String) :
    headerCount (csvWriteTick f row) =
      headerCount f + (if f.present then 0 else 1) ∧
    csvWriteTick deletedFile row =
      { present := true,
        lines := [CsvLine.headerLine, CsvLine.dataLine row] } := by
  constructor
  · cases hp : f.present <;>
      simp [csvWriteTick, headerCount, hp, List.countP_append, isHeaderLine,
        List.countP_cons]
  · simp [csvWriteTick, deletedFile]

/-- C5: serializing a Store whose every field holds the `"N/A"` unavailable
marker yields a row whose every non-timestamp column is the literal `0`; one
persistence tick substitutes `0` only in the emitted row and returns the
in-memory Store unchanged (it works on a copy); and serializing a
fully-populated Store reproduces every stored, already-formatted scalar and
health value verbatim in header-column order. -/
theorem persist_serialization (ts lat lon alt abs_alt speed roll pitch yaw
    voltage battery gps_fix satellites flight_mode armed rc_signal
    v1 v2 v3 v4 v5 v6 v7 : String)
    (h0 : ts ≠ "N/A") (h1 : lat ≠ "N/A") (h2 : lon ≠ "N/A") (h3 : alt ≠ "N/A")
    (h4 : abs_alt ≠ "N/A") (h5 : speed ≠ "N/A") (h6 : roll ≠ "N/A")
    (h7 : pitch ≠ "N/A") (h8 : yaw ≠ "N/A") (h9 : voltage ≠ "N/A")
    (h10 : battery ≠ "N/A") (h11 : gps_fix ≠ "N/A") (h12 : satellites ≠ "N/A")
    (h13 : flight_mode ≠ "N/A") (h14 : armed ≠ "N/A") (h15 : rc_signal ≠ "N/A")
    (h16 : v1 ≠ "N/A") (h17 : v2 ≠ "N/A") (h18 : v3 ≠ "N/A") (h19 : v4 ≠ "N/A")
    (h20 : v5 ≠ "N/A") (h21 : v6 ≠ "N/A") (h22 : v7 ≠ "N/A") :
    rowFor telemetryDataInit ts = ts :: List.replicate 22 "0" ∧
    (∀ d : TelemetryData, ∀ t : String, csvTick d t = (d, rowFor d t)) ∧
    rowFor (TelemetryData.mk lat lon alt abs_alt speed roll pitch yaw voltage
      battery gps_fix satellites flight_mode armed rc_signal
      [("Accelerometer calibration", v1), ("Gyrometer calibration", v2),
       ("Magnetometer calibration", v3), ("Global position", v4),
       ("Home position", v5), ("Local position", v6), ("Armable", v7)]) ts =
      [ts, lat, lon, alt, abs_alt, speed, roll, pitch, yaw, voltage, battery,
       gps_fix, satellites, flight_mode, armed, rc_signal,
       v1, v7, v4, v2, v5, v6, v3] := by
  refine ⟨?_, fun d t => rfl, ?_⟩
  · simp [rowFor, headerCols, flatData, telemetryDataInit, dictGet, naSubst,
      healthColKey, pyLower, pyReplace, pyReplaceFuel, List.find?, h0]
  · simp [rowFor, headerCols, flatData, dictGet, naSubst, healthColKey,
      pyLower, pyReplace, pyReplaceFuel, List.find?, h0, h1, h2, h3, h4, h5,
      h6, h7, h8, h9, h10, h11, h12, h13, h14, h15, h16, h17, h18, h19, h20,
      h21, h22]

/-- C5 witness: the all-unavailable Store serializes to a timestamp followed
by 22 literal zeros, and a concrete fully-populated Store serializes to its
stored formatted values verbatim. -/
theorem persist_serialization_witness :
    ("2025-01-01T00:00:00" : String) ≠ "N/A" ∧
    (rowFor telemetryDataInit "2025-01-01T00:00:00" =
        "2025-01-01T00:00:00" :: List.replicate 22 "0" ∧
      (∀ d : TelemetryData, ∀ t : String, csvTick d t = (d, rowFor d t)) ∧
      rowFor (TelemetryData.mk "47.397742" "8.545594" "10.00" "498.00" "5.00"
        "-1.25" "0.50" "179.99" "12.40" "88.0" "3D" "10" "HOLD" "Yes" "95.0"
        [("Accelerometer calibration", "OK"), ("Gyrometer calibration", "OK"),
         ("Magnetometer calibration", "OK"), ("Global position", "FAIL"),
         ("Home position", "OK"), ("Local position", "OK"), ("Armable", "OK")])
        "2025-01-01T00:00:00" =
        ["2025-01-01T00:00:00", "47.397742", "8.545594", "10.00", "498.00",
         "5.00", "-1.25", "0.50", "179.99", "12.40", "88.0", "3D", "10",
         "HOLD", "Yes", "95.0", "OK", "OK", "FAIL", "OK", "OK", "OK", "OK"]) :=
  ⟨by decide,
   persist_serialization "2025-01-01T00:00:00" "47.397742" "8.545594" "10.00"
     "498.00" "5.00" "-1.25" "0.50" "179.99" "12.40" "88.0" "3D" "10" "HOLD"
     "Yes" "95.0" "OK" "OK" "OK" "FAIL" "OK" "OK" "OK"
     (by decide) (by decide) (by decide) (by decide) (by decide) (by decide)
     (by decide) (by decide) (by decide) (by decide) (by decide) (by decide)
     (by decide) (by decide) (by decide) (by decide) (by decide) (by decide)
     (by decide) (by decide) (by decide) (by decide) (by decide)⟩
